import Mathlib

/-!
Verification of the multi-model comparison and batch-analysis engine of the
financial-news analyzer. The Python source (model_comparison_analyzer.py,
llm_analyzer_hf.py) is shallowly embedded below: texts are lists of
characters, confidence scores are rationals, model invocations are supplied
as oracle functions returning `Except` (an `Except.error` models a raised
exception from the underlying model call), and Python set accumulation is
modelled by `List.dedup` (set semantics: order and multiplicity are
irrelevant downstream, per the spec).
-/

/-- Article texts and string values are modelled as lists of characters. -/
abbrev Text := List Char

/-- Python str.lower, applied characterwise. -/
def lowerStr (s : Text) : Text := s.map Char.toLower

/-- Python str.strip: drop leading and trailing whitespace. -/
def stripStr (s : Text) : Text :=
  ((s.dropWhile Char.isWhitespace).reverse.dropWhile Char.isWhitespace).reverse

/-- company.replace('#', '').strip() — the cleaning step shared by all
entity-filtering code paths in the source. -/
def cleanCompany (s : Text) : Text :=
  stripStr (s.filter (fun c => c ≠ '#'))

/-- needle is a prefix of hay (helper for the substring check). -/
def prefixCheck : Text → Text → Bool
  | [], _ => true
  | _ :: _, [] => false
  | a :: as, b :: bs => (a = b) && prefixCheck as bs

/-- Python `needle in hay` on strings: needle occurs contiguously in hay. -/
def containsSub (needle : Text) : Text → Bool
  | [] => needle.isEmpty
  | c :: rest => prefixCheck needle (c :: rest) || containsSub needle rest

/-- Python dict lookup on a fixed literal table (returns none when the key is
absent, modelling a KeyError site / dict.get miss). -/
def tblLookup {V : Type} : List (Text × V) → Text → Option V
  | [], _ => none
  | (k, v) :: rest, key => if k = key then some v else tblLookup rest key

/-- Python `arg or default` on an optional list argument: both None and the
empty list are falsy, so both select the default. -/
def orDefault (arg : Option (List Text)) (dflt : List Text) : List Text :=
  match arg with
  | none => dflt
  | some l => if l.isEmpty then dflt else l

/-! ## NERAnalyzer (model_comparison_analyzer.py lines 91-112) -/

/-- NERAnalyzer.NEWS_SOURCE_BLOCKLIST (lines 95-98). -/
def NEWS_SOURCE_BLOCKLIST : List Text :=
  ["reuters", "bloomberg", "cnbc", "wsj", "financial", "times", "ap",
   "com", "cnn", "bbc", "nytimes", "theguardian", "forbes", "fortune"].map String.toList

/-- The literal suffix list of NERAnalyzer._filter_companies (line 109). -/
def filterSuffixes : List Text :=
  ["inc", "ltd", "corp", "company", "co"].map String.toList

/-- The membership condition of NERAnalyzer._filter_companies (lines 108-110),
applied to a cleaned candidate. -/
def keepCompany (c : Text) : Bool :=
  decide (2 < c.length) &&
  !(decide (lowerStr c ∈ filterSuffixes)) &&
  !(NEWS_SOURCE_BLOCKLIST.any fun src => containsSub src (lowerStr c))

/-- NERAnalyzer._filter_companies (lines 103-112): clean every candidate,
keep those passing keepCompany, accumulate into a set (here: dedup). -/
def filter_companies (companies : List Text) : List Text :=
  ((companies.map cleanCompany).filter keepCompany).dedup

/-! ## Raw NER entities and the NER analyzer variant (lines 114-144) -/

/-- One entry of the output of a token-classification pipeline: an aggregated
entity span with its group tag and surface word. -/
structure Entity where
  entity_group : Text
  word : Text
deriving DecidableEq

/-- Result of TransformerNERAnalyzer.analyze: either the filtered company
list with its count, or the structured failure dict. -/
inductive NERResult where
  | success (companies : List Text) (count : Nat)
  | failure (error : Text)
deriving DecidableEq

/-- TransformerNERAnalyzer.analyze (lines 129-144). The loaded
token-classification pipeline is the oracle `pipe`; an exception raised by
the pipeline call is `Except.error`. -/
def TransformerNERAnalyzer.analyze (pipe : Text → Except Text (List Entity))
    (text : Text) : NERResult :=
  let analysis_text := text.take 512
  match pipe analysis_text with
  | .error e => .failure e
  | .ok ner_results =>
    let companies :=
      ((ner_results.filter (fun ent => ent.entity_group = "ORG".toList)).map
        (fun ent => ent.word)).dedup
    let filtered_companies := filter_companies companies
    .success filtered_companies filtered_companies.length

/-! ## Sentiment analyzers (model_comparison_analyzer.py lines 21-88) -/

/-- A raw text-classification pipeline output entry: top label and its
confidence score. -/
abbrev SentRaw := Text × ℚ

/-- Result of the analyze method of a sentiment analyzer: either the success dict with
label and score, or the structured failure dict. -/
inductive SentimentOutcome where
  | success (label : Text) (score : ℚ)
  | failure (error : Text)
deriving DecidableEq

/-- TransformerSentimentAnalyzer.analyze (lines 40-50): truncate to 512
characters, invoke the classification pipeline (oracle), return its top
label and score verbatim, converting a raised exception into the failure
dict. -/
def TransformerSentimentAnalyzer.analyze (pipe : Text → Except Text SentRaw)
    (text : Text) : SentimentOutcome :=
  let analysis_text := text.take 512
  match pipe analysis_text with
  | .ok result => .success result.1 result.2
  | .error e => .failure e

/-- PromptBasedSentimentAnalyzer._parse_sentiment_response (lines 80-88):
scan the lowercased response for "positive", then "negative", defaulting to
neutral with confidence 0.5; always a success. -/
def parse_sentiment_response (response : Text) : SentimentOutcome :=
  let response_lower := lowerStr response
  if containsSub "positive".toList response_lower then
    .success "positive".toList (9/10)
  else if containsSub "negative".toList response_lower then
    .success "negative".toList (9/10)
  else
    .success "neutral".toList (1/2)

/-- PromptBasedSentimentAnalyzer.analyze (lines 66-78): the fixed prompt
template is modelled as the pair of its parts before and after the text
placeholder; the generation pipeline is the oracle. A raised exception
becomes the failure dict; otherwise the generated text is parsed. -/
def PromptBasedSentimentAnalyzer.analyze (pre post : Text)
    (pipe : Text → Except Text Text) (text : Text) : SentimentOutcome :=
  let analysis_text := text.take 512
  match pipe (pre ++ analysis_text ++ post) with
  | .ok generated_text => parse_sentiment_response generated_text
  | .error e => .failure e

/-! ## BatchModelComparison (model_comparison_analyzer.py lines 147-231) -/

/-- Model aliases (dict keys of the analyzer tables of the engine). -/
abbrev Alias := Text

/-- BatchModelComparison._parse_sentiment (lines 211-221): lowercase the
label and map it to a signed score. -/
def parse_sentiment (result : SentRaw) : Text × ℚ :=
  let label := lowerStr result.1
  let score := result.2
  let value :=
    if containsSub "positive".toList label then score
    else if containsSub "negative".toList label then -score
    else 0
  (label, value)

/-- The literal suffix list of BatchModelComparison._parse_ner (line 229);
unlike NERAnalyzer._filter_companies it lacks "co" and applies no
news-source blocklist. -/
def parseNerSuffixes : List Text :=
  ["inc", "ltd", "corp", "company"].map String.toList

/-- BatchModelComparison._parse_ner (lines 223-231): collect cleaned ORG
words passing the length and suffix filters into a set (dedup), returned as
the companies list. -/
def parse_ner (ner_results : List Entity) : List Text :=
  (((ner_results.filter (fun ent => ent.entity_group = "ORG".toList)).map
      (fun ent => cleanCompany ent.word)).filter
      (fun name => decide (2 < name.length) &&
        !(decide (lowerStr name ∈ parseNerSuffixes)))).dedup

/-- The state of a constructed BatchModelComparison: its loaded sentiment
and NER pipelines keyed by alias. Each pipeline is a batch oracle taking
the whole (truncated) text list; Except.error models a raised exception
from the batch invocation. -/
structure BatchModelComparison where
  sentiment_analyzers : List (Alias × (List Text → Except Text (List SentRaw)))
  ner_analyzers : List (Alias × (List Text → Except Text (List (List Entity))))

/-- The dict comprehensions of analyze_batch (lines 178-187): run the batch invocation of every
model in order; the first raised exception propagates
(the source wraps none of this in try/except). -/
def runAll {β : Type} (models : List (Alias × (List Text → Except Text β)))
    (texts : List Text) : Except Text (List (Alias × β)) :=
  match models with
  | [] => .ok []
  | (name, analyzer) :: rest =>
    match analyzer texts with
    | .error e => .error e
    | .ok r =>
      match runAll rest texts with
      | .error e => .error e
      | .ok rs => .ok ((name, r) :: rs)

/-- One combined per-article result produced by analyze_batch (lines
204-207): the per-model parsed sentiments and per-model company lists. -/
structure ArticleAnalysis where
  all_sentiments : List (Alias × (Text × ℚ))
  all_ner : List (Alias × List Text)
deriving DecidableEq

/-- The per-article sentiment gathering loop (lines 196-197): for article
index i, take the batch result of each model at i and parse it; indexing past
the end of the output of a model raises (IndexError), which propagates. -/
def gatherSent (rall : List (Alias × List SentRaw)) (i : Nat) :
    Except Text (List (Alias × (Text × ℚ))) :=
  match rall with
  | [] => .ok []
  | (name, results) :: rest =>
    match results[i]? with
    | none => .error "IndexError".toList
    | some r =>
      match gatherSent rest i with
      | .error e => .error e
      | .ok rs => .ok ((name, parse_sentiment r) :: rs)

/-- The per-article NER gathering loop (lines 200-201), as gatherSent. -/
def gatherNer (rall : List (Alias × List (List Entity))) (i : Nat) :
    Except Text (List (Alias × List Text)) :=
  match rall with
  | [] => .ok []
  | (name, results) :: rest =>
    match results[i]? with
    | none => .error "IndexError".toList
    | some r =>
      match gatherNer rest i with
      | .error e => .error e
      | .ok rs => .ok ((name, parse_ner r) :: rs)

/-- The article-building loop of analyze_batch (lines 190-207) over a list
of article indices. -/
def buildArticles (s_all : List (Alias × List SentRaw))
    (n_all : List (Alias × List (List Entity))) :
    List Nat → Except Text (List ArticleAnalysis)
  | [] => .ok []
  | i :: rest =>
    match gatherSent s_all i with
    | .error e => .error e
    | .ok s =>
      match gatherNer n_all i with
      | .error e => .error e
      | .ok nr =>
        match buildArticles s_all n_all rest with
        | .error e => .error e
        | .ok arts => .ok (⟨s, nr⟩ :: arts)

/-- BatchModelComparison.analyze_batch (lines 173-209): truncate every text
to 512 characters, run every sentiment and NER model over the whole batch,
then assemble one ArticleAnalysis per article index. -/
def analyze_batch (self : BatchModelComparison) (texts : List Text) :
    Except Text (List ArticleAnalysis) :=
  let ts := texts.map (List.take 512)
  match runAll self.sentiment_analyzers ts with
  | .error e => .error e
  | .ok s_all =>
    match runAll self.ner_analyzers ts with
    | .error e => .error e
    | .ok n_all => buildArticles s_all n_all (List.range ts.length)

/-! ## Construction of the engines (lines 148-171 and 235-273) -/

/-- BatchModelComparison.SENTIMENT_MODELS (lines 148-152). -/
def BMC_SENTIMENT_MODELS : List (Alias × Text) :=
  [("twitter-roberta".toList, "cardiffnlp/twitter-roberta-base-sentiment-latest".toList),
   ("distilbert-sst2".toList, "distilbert-base-uncased-finetuned-sst-2-english".toList),
   ("finbert".toList, "yiyanghkust/finbert-tone".toList)]

/-- BatchModelComparison.NER_MODELS (lines 154-157). -/
def BMC_NER_MODELS : List (Alias × Text) :=
  [("bert-base-ner".toList, "dslim/bert-base-NER".toList),
   ("bert-large-ner".toList, "dslim/bert-large-NER".toList)]

/-- The dict comprehension of BatchModelComparison.__init__ (lines 163-171):
look each requested alias up in the table in order; an absent alias raises
KeyError (modelled as Except.error carrying the alias). On success the list
of (alias, backing model identifier) pairs stands for the loaded
pipelines. -/
def lookupAllModels (tbl : List (Alias × Text)) :
    List Alias → Except Alias (List (Alias × Text))
  | [] => .ok []
  | name :: rest =>
    match tblLookup tbl name with
    | none => .error name
    | some model_id =>
      match lookupAllModels tbl rest with
      | .error e => .error e
      | .ok rs => .ok ((name, model_id) :: rs)

/-- BatchModelComparison.__init__ (lines 159-171): apply the Python
`arg or [default]` idiom to both alias lists, then build both pipeline
dicts; a KeyError from either dict comprehension propagates. -/
def BatchModelComparison.construct (sentiment_models ner_models : Option (List Alias)) :
    Except Alias (List (Alias × Text) × List (Alias × Text)) :=
  let sms := orDefault sentiment_models ["twitter-roberta".toList]
  let nms := orDefault ner_models ["bert-base-ner".toList]
  match lookupAllModels BMC_SENTIMENT_MODELS sms with
  | .error e => .error e
  | .ok sa =>
    match lookupAllModels BMC_NER_MODELS nms with
    | .error e => .error e
    | .ok na => .ok (sa, na)

/-- ModelComparisonManager.SENTIMENT_MODELS (lines 238-243): alias to
(model identifier, model type string). -/
def MCM_SENTIMENT_MODELS : List (Alias × (Text × Text)) :=
  [("twitter-roberta".toList,
      ("cardiffnlp/twitter-roberta-base-sentiment-latest".toList, "transformer".toList)),
   ("distilbert-sst2".toList,
      ("distilbert-base-uncased-finetuned-sst-2-english".toList, "transformer".toList)),
   ("finbert".toList, ("yiyanghkust/finbert-tone".toList, "transformer".toList)),
   ("llama-sentiment".toList, ("meta-llama/Llama-2-7b-chat-hf".toList, "prompt".toList))]

/-- ModelComparisonManager.NER_MODELS (lines 245-248). -/
def MCM_NER_MODELS : List (Alias × Text) :=
  [("bert-base-ner".toList, "dslim/bert-base-NER".toList),
   ("bert-large-ner".toList, "dslim/bert-large-NER".toList)]

/-- A sentiment analyzer as appended by _load_sentiment_models: the alias it
was requested under, its backing model identifier, and its type tag. -/
structure LoadedSentimentAnalyzer where
  model_key : Alias
  model_id : Text
  model_type : Text
deriving DecidableEq

/-- ModelComparisonManager._load_sentiment_models (lines 256-267): for each
requested key, if it is in the table build the matching analyzer variant,
otherwise skip it silently (the source has no else branch for an absent
key, and `continue` for an unknown type tag). -/
def load_sentiment_models (model_keys : List Alias) : List LoadedSentimentAnalyzer :=
  model_keys.filterMap (fun model_key =>
    match tblLookup MCM_SENTIMENT_MODELS model_key with
    | none => none
    | some (model_id, model_type) =>
      if model_type = "transformer".toList then some ⟨model_key, model_id, model_type⟩
      else if model_type = "prompt".toList then some ⟨model_key, model_id, model_type⟩
      else none)

/-- ModelComparisonManager._load_ner_models (lines 269-273): same silent
skip of any key absent from the table. -/
def load_ner_models (model_keys : List Alias) : List (Alias × Text) :=
  model_keys.filterMap (fun model_key =>
    match tblLookup MCM_NER_MODELS model_key with
    | none => none
    | some model_id => some (model_key, model_id))

/-- ModelComparisonManager.__init__ (lines 250-254): always succeeds,
returning the loaded sentiment and NER analyzer lists. -/
def ModelComparisonManager.construct (sentiment_models ner_models : Option (List Alias)) :
    List LoadedSentimentAnalyzer × List (Alias × Text) :=
  (load_sentiment_models (orDefault sentiment_models ["twitter-roberta".toList]),
   load_ner_models (orDefault ner_models ["bert-base-ner".toList]))

/-! ## llm_analyzer_hf.py (lines 28-71) -/

/-- The result dict of analyze_news_article. -/
structure LLMResults where
  sentiment : ℚ
  companies : List Text
deriving DecidableEq

/-- The label_map literal of analyze_news_article (line 45). -/
def llm_label_map : List (Text × ℚ) :=
  [("negative".toList, 0), ("neutral".toList, 1), ("positive".toList, 2)]

/-- analyze_news_article (llm_analyzer_hf.py lines 28-71): truncate to 512
characters; score the sentiment by weighting the label_map entry (default
0.0 on an unknown label, via dict.get) by the confidence of the model; then
extract cleaned ORG entities longer than 2 characters whose lowercase form
is not a generic suffix, deduplicated through a set. An exception from
either pipeline leaves the fields assigned so far (the initial dict holds sentiment 0.0 and an empty company list, and the
try block mutates it in order). -/
def analyze_news_article (sentiment_analyzer : Text → Except Text SentRaw)
    (ner_analyzer : Text → Except Text (List Entity))
    (article_text : Text) : LLMResults :=
  let analysis_text := article_text.take 512
  match sentiment_analyzer analysis_text with
  | .error _ => ⟨0, []⟩
  | .ok top_sentiment =>
    let s := ((tblLookup llm_label_map top_sentiment.1).getD 0) * top_sentiment.2
    match ner_analyzer analysis_text with
    | .error _ => ⟨s, []⟩
    | .ok ner_results =>
      let companies :=
        (((ner_results.filter (fun ent => ent.entity_group = "ORG".toList)).map
            (fun ent => cleanCompany ent.word)).filter
            (fun name => decide (2 < name.length) &&
              !(decide (lowerStr name ∈ parseNerSuffixes)))).dedup
      ⟨s, companies⟩

/-! ## Helper lemmas -/

/-- Unfolding of the keepCompany condition into its three conjuncts. -/
theorem keepCompany_eq_true {c : Text} (h : keepCompany c = true) :
    2 < c.length ∧ lowerStr c ∉ filterSuffixes ∧
      ∀ src ∈ NEWS_SOURCE_BLOCKLIST, containsSub src (lowerStr c) = false := by
  simp only [keepCompany, Bool.and_eq_true, Bool.not_eq_true', decide_eq_true_eq,
    decide_eq_false_iff_not, List.any_eq_false] at h
  obtain ⟨⟨h1, h2⟩, h3⟩ := h
  refine ⟨h1, h2, fun src hsrc => ?_⟩
  have := h3 src hsrc
  simpa using this

/-! ## Claim C3 : entity filtering and the news-source denylist -/

/-- Claim C3 counterexample: BatchModelComparison._parse_ner keeps the raw
organization token "Reuters" even though "reuters" is on the news-source
blocklist and occurs in its lowercase form — the per-model entity parsing of the engine: that
parsing applies no news-source denylist, so the claim as stated is false. -/
theorem parse_ner_keeps_reuters_cex :
    parse_ner [⟨"ORG".toList, "Reuters".toList⟩] = ["Reuters".toList] ∧
    "reuters".toList ∈ NEWS_SOURCE_BLOCKLIST ∧
    containsSub "reuters".toList (lowerStr "Reuters".toList) = true := by decide

/-- Claim C3 (amended): NERAnalyzer._filter_companies output contains only
strings longer than 2 characters, never a generic corporate suffix
(case-insensitively), and never a string containing a news-source denylist
token — while BatchModelComparison._parse_ner guarantees only the length
bound and the absence of its four-element suffix list, with no news-source
filtering. -/
theorem entity_filtering_properties :
    (∀ (companies : List Text) (s : Text), s ∈ filter_companies companies →
      2 < s.length ∧ lowerStr s ∉ filterSuffixes ∧
        ∀ src ∈ NEWS_SOURCE_BLOCKLIST, containsSub src (lowerStr s) = false) ∧
    (∀ (ner_results : List Entity) (s : Text), s ∈ parse_ner ner_results →
      2 < s.length ∧ lowerStr s ∉ parseNerSuffixes) := by
  constructor
  · intro companies s hs
    simp only [filter_companies, List.mem_dedup, List.mem_filter] at hs
    exact keepCompany_eq_true hs.2
  · intro ner_results s hs
    simp only [parse_ner, List.mem_dedup, List.mem_filter, Bool.and_eq_true,
      Bool.not_eq_true', decide_eq_true_eq, decide_eq_false_iff_not] at hs
    exact hs.2

/-- Witness for the amended C3: "Tesla" survives _filter_companies on the
singleton candidate list, and the three filtering properties hold of it. -/
theorem entity_filtering_properties_witness :
    2 < "Tesla".toList.length ∧ lowerStr "Tesla".toList ∉ filterSuffixes ∧
      ∀ src ∈ NEWS_SOURCE_BLOCKLIST, containsSub src (lowerStr "Tesla".toList) = false :=
  entity_filtering_properties.1 ["Tesla".toList] "Tesla".toList (by decide)

/-! ## Claims C4 and C8 : sentiment score normalization -/

/-- Claim C4 counterexample: the normalization in
llm_analyzer_hf.analyze_news_article maps label "negative" with confidence
24/25 to score 0, not to the signed value -(24/25) the claim requires
(label_map sends "negative" to 0.0 before weighting by confidence). -/
theorem llm_negative_label_unsigned_cex :
    (analyze_news_article (fun _ => .ok ("negative".toList, 24/25)) (fun _ => .ok [])
        "Tesla shares drop.".toList).sentiment = 0 ∧
    (0 : ℚ) ≠ -(24/25) := by
  constructor
  · simp only [analyze_news_article]
    rw [show tblLookup llm_label_map "negative".toList = some 0 from by decide]
    norm_num
  · norm_num

/-- Claim C4 (amended): BatchModelComparison._parse_sentiment follows the
signed law — a label containing "positive" (case-insensitively) maps to
+confidence, one containing "negative" to -confidence, anything else to 0 —
whereas llm_analyzer_hf weights the unsigned map sending negative to 0,
neutral to 1 and positive to 2 by the confidence instead. -/
theorem parse_sentiment_signed_law (label : Text) (c : ℚ) :
    (containsSub "positive".toList (lowerStr label) = true →
      (parse_sentiment (label, c)).2 = c) ∧
    (containsSub "positive".toList (lowerStr label) = false →
      containsSub "negative".toList (lowerStr label) = true →
      (parse_sentiment (label, c)).2 = -c) ∧
    (containsSub "positive".toList (lowerStr label) = false →
      containsSub "negative".toList (lowerStr label) = false →
      (parse_sentiment (label, c)).2 = 0) := by
  refine ⟨fun h1 => ?_, fun h1 h2 => ?_, fun h1 h2 => ?_⟩
  · simp only [parse_sentiment]
    rw [if_pos h1]
  · simp only [parse_sentiment]
    rw [if_neg (by simp only [h1]; exact Bool.false_ne_true), if_pos h2]
  · simp only [parse_sentiment]
    rw [if_neg (by simp only [h1]; exact Bool.false_ne_true),
      if_neg (by simp only [h2]; exact Bool.false_ne_true)]

/-- Witness for the amended C4: the label "NEGATIVE" with confidence 3/4
normalizes to -(3/4). -/
theorem parse_sentiment_signed_law_witness :
    (parse_sentiment ("NEGATIVE".toList, 3/4)).2 = -(3/4) :=
  (parse_sentiment_signed_law "NEGATIVE".toList (3/4)).2.1 (by decide) (by decide)

/-- Claim C8 counterexample: llm_analyzer_hf maps label "positive" with
confidence 24/25 to score 48/25, which exceeds 1, so the claimed [-1, 1]
bound fails for that normalization. -/
theorem llm_score_exceeds_unit_cex :
    (analyze_news_article (fun _ => .ok ("positive".toList, 24/25)) (fun _ => .ok [])
        "Apple stock soared.".toList).sentiment = 48/25 ∧
    ¬((48/25 : ℚ) ≤ 1) := by
  constructor
  · simp only [analyze_news_article]
    rw [show tblLookup llm_label_map "positive".toList = some 2 from by decide]
    norm_num
  · norm_num

/-- Claim C8 (amended): for every raw result with confidence in [0, 1], the
score produced by BatchModelComparison._parse_sentiment lies in [-1, 1];
the weighted policy of llm_analyzer_hf instead ranges over [0, 2]. -/
theorem parse_sentiment_score_bounds (label : Text) (c : ℚ)
    (h0 : 0 ≤ c) (h1 : c ≤ 1) :
    -1 ≤ (parse_sentiment (label, c)).2 ∧ (parse_sentiment (label, c)).2 ≤ 1 := by
  simp only [parse_sentiment]
  split_ifs <;> constructor <;> linarith

/-- Witness for the amended C8: confidence 3/4 with label "NEGATIVE" yields
a score within [-1, 1]. -/
theorem parse_sentiment_score_bounds_witness :
    -1 ≤ (parse_sentiment ("NEGATIVE".toList, 3/4)).2 ∧
      (parse_sentiment ("NEGATIVE".toList, 3/4)).2 ≤ 1 :=
  parse_sentiment_score_bounds "NEGATIVE".toList (3/4) (by norm_num) (by norm_num)

/-! ## Claim C9 : the prompt-response parser is total -/

/-- Claim C9: _parse_sentiment_response always returns a success — label
"positive" when the lowercased response contains "positive", else
"negative" when it contains "negative", else "neutral" with confidence
0.5; it never returns a failure for any input string. -/
theorem parse_sentiment_response_total (response : Text) :
    (∃ lbl sc, parse_sentiment_response response = .success lbl sc) ∧
    (containsSub "positive".toList (lowerStr response) = true →
      ∃ sc, parse_sentiment_response response = .success "positive".toList sc) ∧
    (containsSub "positive".toList (lowerStr response) = false →
      containsSub "negative".toList (lowerStr response) = true →
      ∃ sc, parse_sentiment_response response = .success "negative".toList sc) ∧
    (containsSub "positive".toList (lowerStr response) = false →
      containsSub "negative".toList (lowerStr response) = false →
      parse_sentiment_response response = .success "neutral".toList (1/2)) := by
  have hpos : ∀ h : containsSub "positive".toList (lowerStr response) = true,
      parse_sentiment_response response = .success "positive".toList (9/10) := by
    intro h
    simp only [parse_sentiment_response]
    rw [if_pos h]
  have hneg : containsSub "positive".toList (lowerStr response) = false →
      ∀ h2 : containsSub "negative".toList (lowerStr response) = true,
      parse_sentiment_response response = .success "negative".toList (9/10) := by
    intro h1 h2
    simp only [parse_sentiment_response]
    rw [if_neg (by simp only [h1]; exact Bool.false_ne_true), if_pos h2]
  have hneu : containsSub "positive".toList (lowerStr response) = false →
      containsSub "negative".toList (lowerStr response) = false →
      parse_sentiment_response response = .success "neutral".toList (1/2) := by
    intro h1 h2
    simp only [parse_sentiment_response]
    rw [if_neg (by simp only [h1]; exact Bool.false_ne_true),
      if_neg (by simp only [h2]; exact Bool.false_ne_true)]
  refine ⟨?_, fun h1 => ⟨_, hpos h1⟩, fun h1 h2 => ⟨_, hneg h1 h2⟩, hneu⟩
  cases h1 : containsSub "positive".toList (lowerStr response)
  · cases h2 : containsSub "negative".toList (lowerStr response)
    · exact ⟨_, _, hneu h1 h2⟩
    · exact ⟨_, _, hneg h1 h2⟩
  · exact ⟨_, _, hpos h1⟩

/-- Witness for C9: a response mentioning neither word parses to neutral
with confidence 0.5. -/
theorem parse_sentiment_response_total_witness :
    parse_sentiment_response "I cannot tell.".toList = .success "neutral".toList (1/2) :=
  (parse_sentiment_response_total "I cannot tell.".toList).2.2.2 (by decide) (by decide)

/-! ## Claim C10 : NER success results are counted and deduplicated -/

/-- Claim C10: whenever TransformerNERAnalyzer.analyze succeeds, the count
field equals the length of the companies list and that list contains no
duplicates (candidates pass through a set before being returned). -/
theorem ner_analyze_count_and_nodup (pipe : Text → Except Text (List Entity))
    (text : Text) (companies : List Text) (count : Nat)
    (h : TransformerNERAnalyzer.analyze pipe text = .success companies count) :
    count = companies.length ∧ companies.Nodup := by
  simp only [TransformerNERAnalyzer.analyze] at h
  cases hp : pipe (text.take 512) with
  | error e =>
    rw [hp] at h
    exact absurd h (by simp)
  | ok ner_results =>
    rw [hp] at h
    simp only [NERResult.success.injEq] at h
    obtain ⟨h1, h2⟩ := h
    subst h1
    subst h2
    exact ⟨rfl, by simp [filter_companies, List.nodup_dedup]⟩

/-- Witness for C10: a pipeline returning the ORG span "Tesla" twice yields
a success whose count matches its deduplicated companies list. -/
theorem ner_analyze_count_and_nodup_witness :
    1 = ["Tesla".toList].length ∧ ["Tesla".toList].Nodup :=
  ner_analyze_count_and_nodup
    (fun _ => .ok [⟨"ORG".toList, "Tesla".toList⟩, ⟨"ORG".toList, "Tesla".toList⟩])
    "headline".toList ["Tesla".toList] 1 (by decide)

/-! ## Claim C5 : only the first 512 characters influence any result -/

/-- Claim C5: two texts agreeing on their first 512 characters produce
identical results through every analyze operation — analyze of each Analyzer
variant, and analyze_batch on positionwise-agreeing batches. -/
theorem truncation_determines_results
    (sp : Text → Except Text SentRaw) (pre post : Text)
    (gp : Text → Except Text Text) (np : Text → Except Text (List Entity))
    (B : BatchModelComparison) (t1 t2 : Text) (h : t1.take 512 = t2.take 512)
    (ts1 ts2 : List Text) (hts : ts1.map (List.take 512) = ts2.map (List.take 512)) :
    TransformerSentimentAnalyzer.analyze sp t1 = TransformerSentimentAnalyzer.analyze sp t2 ∧
    PromptBasedSentimentAnalyzer.analyze pre post gp t1 =
      PromptBasedSentimentAnalyzer.analyze pre post gp t2 ∧
    TransformerNERAnalyzer.analyze np t1 = TransformerNERAnalyzer.analyze np t2 ∧
    analyze_batch B ts1 = analyze_batch B ts2 := by
  refine ⟨?_, ?_, ?_, ?_⟩
  · simp only [TransformerSentimentAnalyzer.analyze, h]
  · simp only [PromptBasedSentimentAnalyzer.analyze, h]
  · simp only [TransformerNERAnalyzer.analyze, h]
  · simp only [analyze_batch, hts]

/-- Witness for C5: a 513-character text and its 512-character prefix agree
after truncation, so every analyze operation treats them identically. -/
theorem truncation_determines_results_witness :
    TransformerSentimentAnalyzer.analyze (fun t => .ok (t, 1))
        (List.replicate 513 'a') =
      TransformerSentimentAnalyzer.analyze (fun t => .ok (t, 1))
        (List.replicate 512 'a') :=
  (truncation_determines_results (fun t => .ok (t, 1)) [] [] (fun t => .ok t)
    (fun _ => .ok []) ⟨[], []⟩ (List.replicate 513 'a') (List.replicate 512 'a')
    (by rw [List.take_replicate, List.take_replicate]; norm_num) [] [] rfl).1

/-! ## Claim C6 : per-analyzer exception capture -/

/-- Claim C6: for each of the three Analyzer variants, an exception raised
by the underlying model invocation is converted into the structured failure
result carrying the message, instead of propagating to the caller. -/
theorem analyzer_exception_to_failure
    (sp : Text → Except Text SentRaw) (pre post : Text)
    (gp : Text → Except Text Text) (np : Text → Except Text (List Entity))
    (t e : Text) :
    (sp (t.take 512) = .error e →
      TransformerSentimentAnalyzer.analyze sp t = .failure e) ∧
    (gp (pre ++ t.take 512 ++ post) = .error e →
      PromptBasedSentimentAnalyzer.analyze pre post gp t = .failure e) ∧
    (np (t.take 512) = .error e →
      TransformerNERAnalyzer.analyze np t = .failure e) := by
  refine ⟨fun h => ?_, fun h => ?_, fun h => ?_⟩
  · simp only [TransformerSentimentAnalyzer.analyze, h]
  · simp only [PromptBasedSentimentAnalyzer.analyze, h]
  · simp only [TransformerNERAnalyzer.analyze, h]

/-- Witness for C6: a model invocation raising "CUDA out of memory" is
returned as the failure dict by the classification sentiment analyzer. -/
theorem analyzer_exception_to_failure_witness :
    TransformerSentimentAnalyzer.analyze (fun _ => .error "CUDA out of memory".toList)
        "headline".toList = .failure "CUDA out of memory".toList :=
  (analyzer_exception_to_failure (fun _ => .error "CUDA out of memory".toList)
    [] [] (fun _ => .ok []) (fun _ => .ok []) "headline".toList
    "CUDA out of memory".toList).1 rfl

/-! ## Claim C7 : unknown model aliases at construction time -/

/-- If some requested alias is absent from the table, the dict
comprehension of BatchModelComparison.__init__ raises (first missing key
wins, but some error always results). -/
theorem lookupAllModels_error_of_missing (tbl : List (Alias × Text)) :
    ∀ (names : List Alias) (a : Alias), a ∈ names → tblLookup tbl a = none →
      ∃ e, lookupAllModels tbl names = .error e := by
  intro names
  induction names with
  | nil => intro a ha; exact absurd ha (List.not_mem_nil a)
  | cons b rest ih =>
    intro a ha hnone
    rcases List.mem_cons.mp ha with hb | hrest
    · subst hb
      refine ⟨a, ?_⟩
      simp only [lookupAllModels, hnone]
    · cases hb2 : tblLookup tbl b with
      | none => exact ⟨b, by simp only [lookupAllModels, hb2]⟩
      | some mid =>
        obtain ⟨e, he⟩ := ih a hrest hnone
        exact ⟨e, by simp only [lookupAllModels, hb2, he]⟩

/-- Claim C7 counterexample: the loader of ModelComparisonManager silently skips
an alias absent from its sentiment table — construction succeeds with the
unknown alias dropped (no error of any kind), while the known NER alias is
still loaded. -/
theorem manager_silently_skips_unknown_alias_cex :
    ModelComparisonManager.construct (some ["no-such-model".toList])
        (some ["bert-base-ner".toList]) =
      ([], [("bert-base-ner".toList, "dslim/bert-base-NER".toList)]) := by decide

/-- Claim C7 (amended): BatchModelComparison construction fails immediately
(a KeyError carrying the alias) when a requested alias is absent from the
corresponding registry table; ModelComparisonManager, by contrast, silently
skips unrecognized aliases at construction. -/
theorem batch_construction_fails_on_unknown_alias
    (sentiment_models ner_models : Option (List Alias))
    (h : (∃ a ∈ orDefault sentiment_models ["twitter-roberta".toList],
            tblLookup BMC_SENTIMENT_MODELS a = none) ∨
         (∃ a ∈ orDefault ner_models ["bert-base-ner".toList],
            tblLookup BMC_NER_MODELS a = none)) :
    ∃ e, BatchModelComparison.construct sentiment_models ner_models = .error e := by
  rcases h with ⟨a, ha, hnone⟩ | ⟨a, ha, hnone⟩
  · obtain ⟨e, he⟩ := lookupAllModels_error_of_missing BMC_SENTIMENT_MODELS _ a ha hnone
    exact ⟨e, by simp only [BatchModelComparison.construct, he]⟩
  · obtain ⟨e, he⟩ := lookupAllModels_error_of_missing BMC_NER_MODELS _ a ha hnone
    cases hs : lookupAllModels BMC_SENTIMENT_MODELS
        (orDefault sentiment_models ["twitter-roberta".toList]) with
    | error e2 => exact ⟨e2, by simp only [BatchModelComparison.construct, hs]⟩
    | ok sa => exact ⟨e, by simp only [BatchModelComparison.construct, hs, he]⟩

/-- Witness for the amended C7: requesting the unknown sentiment alias
"bogus-model" makes BatchModelComparison construction fail. -/
theorem batch_construction_fails_on_unknown_alias_witness :
    ∃ e, BatchModelComparison.construct (some ["bogus-model".toList]) none = .error e :=
  batch_construction_fails_on_unknown_alias (some ["bogus-model".toList]) none
    (Or.inl ⟨"bogus-model".toList, by decide, by decide⟩)

/-! ## Claims C1 and C2 : batch length, alignment, and failure propagation -/

/-- The expected per-article sentiment assembly: the batch output of every model
at article index i, parsed. -/
def sentAt (rall : List (Alias × List SentRaw)) (i : Nat) : List (Alias × (Text × ℚ)) :=
  rall.map (fun p => (p.1, parse_sentiment ((p.2[i]?).getD ([], 0))))

/-- The expected per-article NER assembly: the batch output of every model at
article index i, parsed. -/
def nerAt (rall : List (Alias × List (List Entity))) (i : Nat) : List (Alias × List Text) :=
  rall.map (fun p => (p.1, parse_ner ((p.2[i]?).getD [])))

/-- When index i is in range for the batch output of every model, the sentiment
gathering loop succeeds and produces exactly the per-index assembly. -/
theorem gatherSent_ok (rall : List (Alias × List SentRaw)) (i : Nat)
    (h : ∀ p ∈ rall, i < p.2.length) :
    gatherSent rall i = .ok (sentAt rall i) := by
  induction rall with
  | nil => rfl
  | cons q rest ih =>
    have hi : i < q.2.length := h q (List.mem_cons_self q rest)
    have hq : q.2[i]? = some q.2[i] := List.getElem?_eq_getElem hi
    have hrest := ih (fun p hp => h p (List.mem_cons_of_mem q hp))
    obtain ⟨name, results⟩ := q
    simp only [gatherSent, hq, hrest, sentAt, List.map_cons]
    simp [hq]

/-- When index i is in range for the batch output of every model, the NER
gathering loop succeeds and produces exactly the per-index assembly. -/
theorem gatherNer_ok (rall : List (Alias × List (List Entity))) (i : Nat)
    (h : ∀ p ∈ rall, i < p.2.length) :
    gatherNer rall i = .ok (nerAt rall i) := by
  induction rall with
  | nil => rfl
  | cons q rest ih =>
    have hi : i < q.2.length := h q (List.mem_cons_self q rest)
    have hq : q.2[i]? = some q.2[i] := List.getElem?_eq_getElem hi
    have hrest := ih (fun p hp => h p (List.mem_cons_of_mem q hp))
    obtain ⟨name, results⟩ := q
    simp only [gatherNer, hq, hrest, nerAt, List.map_cons]
    simp [hq]

/-- When every index in the list is in range for the output of every model, the
article-building loop succeeds with one assembled article per index. -/
theorem buildArticles_ok (s_all : List (Alias × List SentRaw))
    (n_all : List (Alias × List (List Entity))) (idxs : List Nat)
    (h : ∀ i ∈ idxs, (∀ p ∈ s_all, i < p.2.length) ∧ (∀ p ∈ n_all, i < p.2.length)) :
    buildArticles s_all n_all idxs =
      .ok (idxs.map (fun i => ⟨sentAt s_all i, nerAt n_all i⟩)) := by
  induction idxs with
  | nil => rfl
  | cons i rest ih =>
    have hi := h i (List.mem_cons_self i rest)
    have hrest := ih (fun j hj => h j (List.mem_cons_of_mem i hj))
    simp only [buildArticles, gatherSent_ok s_all i hi.1, gatherNer_ok n_all i hi.2,
      hrest, List.map_cons]

/-- Claim C1: when the batch invocation of every configured model succeeds with
one output per (truncated) input — the batched-inference contract of the
underlying pipelines — analyze_batch returns exactly one result per input
text, and the result at index i is assembled from the output of every model at
index i. -/
theorem analyze_batch_length_and_alignment
    (B : BatchModelComparison) (texts : List Text)
    (s_all : List (Alias × List SentRaw)) (n_all : List (Alias × List (List Entity)))
    (hs : runAll B.sentiment_analyzers (texts.map (List.take 512)) = .ok s_all)
    (hn : runAll B.ner_analyzers (texts.map (List.take 512)) = .ok n_all)
    (hls : ∀ p ∈ s_all, p.2.length = texts.length)
    (hln : ∀ p ∈ n_all, p.2.length = texts.length) :
    ∃ out, analyze_batch B texts = .ok out ∧ out.length = texts.length ∧
      ∀ i, i < texts.length →
        out[i]? = some ⟨sentAt s_all i, nerAt n_all i⟩ := by
  have hb : buildArticles s_all n_all (List.range texts.length) =
      .ok ((List.range texts.length).map (fun i => ⟨sentAt s_all i, nerAt n_all i⟩)) := by
    refine buildArticles_ok s_all n_all (List.range texts.length) (fun i hi => ?_)
    have hilt : i < texts.length := List.mem_range.mp hi
    exact ⟨fun p hp => (hls p hp) ▸ hilt, fun p hp => (hln p hp) ▸ hilt⟩
  refine ⟨(List.range texts.length).map (fun i => ⟨sentAt s_all i, nerAt n_all i⟩),
    ?_, ?_, ?_⟩
  · simp only [analyze_batch, hs, hn, List.length_map, hb]
  · simp [List.length_map, List.length_range]
  · intro i hilt
    rw [List.getElem?_map]
    rw [List.getElem?_range hilt]
    rfl

/-- Witness for C1: one sentiment model and one NER model, each returning
one output per input over a two-article batch, yield a two-article
index-aligned result. -/
def cfgAligned : BatchModelComparison :=
  ⟨[("twitter-roberta".toList,
      fun ts => .ok (ts.map (fun _ => ("positive".toList, (1:ℚ)))))],
   [("bert-base-ner".toList,
      fun ts => .ok (ts.map (fun _ => ([⟨"ORG".toList, "Tesla".toList⟩] : List Entity))))]⟩

/-- The batch outputs of the sentiment model of cfgAligned on a two-text batch. -/
def cfgAlignedSentOut : List (Alias × List SentRaw) :=
  [("twitter-roberta".toList, [("positive".toList, 1), ("positive".toList, 1)])]

/-- The batch outputs of the NER model of cfgAligned on a two-text batch. -/
def cfgAlignedNerOut : List (Alias × List (List Entity)) :=
  [("bert-base-ner".toList,
    [[⟨"ORG".toList, "Tesla".toList⟩], [⟨"ORG".toList, "Tesla".toList⟩]])]

theorem analyze_batch_length_and_alignment_witness :
    ∃ out, analyze_batch cfgAligned ["a".toList, "b".toList] = .ok out ∧
      out.length = 2 ∧
      ∀ i, i < 2 → out[i]? = some ⟨sentAt cfgAlignedSentOut i, nerAt cfgAlignedNerOut i⟩ :=
  analyze_batch_length_and_alignment cfgAligned ["a".toList, "b".toList]
    cfgAlignedSentOut cfgAlignedNerOut rfl rfl
    (by intro p hp; simp only [cfgAlignedSentOut] at hp; simp [List.mem_singleton.mp hp])
    (by intro p hp; simp only [cfgAlignedNerOut] at hp; simp [List.mem_singleton.mp hp])

/-- If any model in the list fails its batch invocation, the dict
comprehension fails as a whole (the first raised exception propagates). -/
theorem runAll_error_of_mem {β : Type}
    (models : List (Alias × (List Text → Except Text β))) (texts : List Text)
    (h : ∃ p ∈ models, ∃ e, p.2 texts = .error e) :
    ∃ e2, runAll models texts = .error e2 := by
  induction models with
  | nil => obtain ⟨p, hp, -⟩ := h; exact absurd hp (List.not_mem_nil p)
  | cons q rest ih =>
    cases hq : q.2 texts with
    | error e =>
      refine ⟨e, ?_⟩
      obtain ⟨name, f⟩ := q
      simp only [runAll]
      simp only at hq
      rw [hq]
    | ok r =>
      obtain ⟨p, hp, e, he⟩ := h
      rcases List.mem_cons.mp hp with hpq | hprest
      · subst hpq
        rw [hq] at he
        exact absurd he (by simp)
      · obtain ⟨e2, he2⟩ := ih ⟨p, hprest, e, he⟩
        refine ⟨e2, ?_⟩
        obtain ⟨name, f⟩ := q
        simp only [runAll]
        simp only at hq
        rw [hq, he2]

/-- Claim C2 counterexample: with one sentiment model whose batch
invocation raises and one healthy NER model, analyze_batch on a one-article
batch returns no result list at all — the exception propagates out of the
engine instead of producing per-article failure markers. -/
def cfgOneFailing : BatchModelComparison :=
  ⟨[("twitter-roberta".toList, fun _ => .error "model crashed".toList)],
   [("bert-base-ner".toList, fun ts => .ok (ts.map (fun _ => ([] : List Entity))))]⟩

theorem analyze_batch_failure_not_isolated_cex :
    analyze_batch cfgOneFailing ["some headline".toList] = .error "model crashed".toList ∧
    ∀ out, analyze_batch cfgOneFailing ["some headline".toList] ≠ .ok out := by
  constructor
  · rfl
  · intro out h
    rw [show analyze_batch cfgOneFailing ["some headline".toList] =
        .error "model crashed".toList from rfl] at h
    exact absurd h (by simp)

/-- Claim C2 (amended): if the batch invocation of any configured model raises,
analyze_batch itself raises (the error propagates past the engine); no
full-length output with per-article failure markers is produced. The
per-article failure isolation exists only on the non-batch Analyzer.analyze
paths. -/
theorem analyze_batch_error_propagation
    (B : BatchModelComparison) (texts : List Text)
    (h : (∃ p ∈ B.sentiment_analyzers, ∃ e, p.2 (texts.map (List.take 512)) = .error e) ∨
         (∃ p ∈ B.ner_analyzers, ∃ e, p.2 (texts.map (List.take 512)) = .error e)) :
    ∃ e2, analyze_batch B texts = .error e2 := by
  rcases h with hsent | hner
  · obtain ⟨e2, he2⟩ := runAll_error_of_mem B.sentiment_analyzers _ hsent
    exact ⟨e2, by simp only [analyze_batch, he2]⟩
  · obtain ⟨e2, he2⟩ := runAll_error_of_mem B.ner_analyzers _ hner
    cases hs : runAll B.sentiment_analyzers (texts.map (List.take 512)) with
    | error e3 => exact ⟨e3, by simp only [analyze_batch, hs]⟩
    | ok s_all => exact ⟨e2, by simp only [analyze_batch, hs, he2]⟩

/-- Witness for the amended C2: the failing configuration propagates an
error out of analyze_batch. -/
theorem analyze_batch_error_propagation_witness :
    ∃ e2, analyze_batch cfgOneFailing ["some headline".toList] = .error e2 :=
  analyze_batch_error_propagation cfgOneFailing ["some headline".toList]
    (Or.inl ⟨("twitter-roberta".toList, fun _ => .error "model crashed".toList),
      by simp [cfgOneFailing], "model crashed".toList, rfl⟩)
